import Mathlib

/-!
Verification of the gitlens extension sources: a shallow embedding of
AnnotationState and the suspend/resume logic of CurrentLineController
(currentLineController.ts), the DocumentTracker event machinery
(gitDocumentTracker.ts) and ResultsExplorer.addResults (resultsExplorer.ts),
with theorems settling the specification claims about them.
-/

/-- The suspend reason union type of the source: 'debugging' | 'dirty'. -/
inductive SuspendReason
  | debugging
  | dirty
deriving DecidableEq, Repr, Fintype

/-- Embeds class AnnotationState: the private underlying enabled flag
    (source field _enabled) and the optional suspend reason
    (source field _suspendReason). -/
structure AnnotationState where
  _enabled : Bool
  _suspendReason : Option SuspendReason
deriving DecidableEq, Repr, Fintype

/-- get suspended(): the suspend reason is set. -/
def AnnotationState.suspended (s : AnnotationState) : Bool :=
  s._suspendReason.isSome

/-- get enabled(): returns false while suspended, the underlying flag
    otherwise. -/
def AnnotationState.enabled (s : AnnotationState) : Bool :=
  if s.suspended then false else s._enabled

/-- reset(enabled): unconditionally sets the flag and clears suspension;
    the returned Bool is whether a refresh is required. -/
def AnnotationState.reset (s : AnnotationState) (enabled : Bool) :
    AnnotationState × Bool :=
  if s._enabled = enabled ∧ ¬ s.suspended then (s, false)
  else ({ _enabled := enabled, _suspendReason := none }, true)

/-- resume(reason): clears the suspend reason unconditionally; the reason
    argument is never inspected by the source body. Returns whether a
    refresh is required (it was actually suspended). -/
def AnnotationState.resume (s : AnnotationState) (_reason : SuspendReason) :
    AnnotationState × Bool :=
  ({ s with _suspendReason := none }, s._suspendReason.isSome)

/-- suspend(reason): overwrites the suspend reason; a refresh is required
    only on first suspension. -/
def AnnotationState.suspend (s : AnnotationState) (reason : SuspendReason) :
    AnnotationState × Bool :=
  ({ s with _suspendReason := some reason }, s._suspendReason.isNone)

/-- One call in a reset/suspend/resume call sequence on an AnnotationState. -/
inductive AnnOp
  | reset (enabled : Bool)
  | suspend (reason : SuspendReason)
  | resume (reason : SuspendReason)
deriving DecidableEq, Repr

/-- Perform one call, keeping the state and dropping the refresh Bool. -/
def AnnotationState.applyOp (s : AnnotationState) : AnnOp → AnnotationState
  | .reset e => (s.reset e).1
  | .suspend r => (s.suspend r).1
  | .resume r => (s.resume r).1

/-- Perform a whole call sequence left to right. -/
def AnnotationState.applyOps (s : AnnotationState) (ops : List AnnOp) :
    AnnotationState :=
  ops.foldl AnnotationState.applyOp s

/-- The slice of CurrentLineController state that the suspend/resume logic
    reads and writes: the optional _blameAnnotationState field and the
    currentLine.enabled configuration value that getBlameAnnotationState
    falls back to while the field is undefined. -/
structure ControllerState where
  _blameAnnotationState : Option AnnotationState
  cfgCurrentLineEnabled : Bool
deriving DecidableEq, Repr

/-- getBlameAnnotationState().enabled: the stored state's enabled getter if
    the field is defined, otherwise the currentLine.enabled config value. -/
def ControllerState.blameStateEnabled (cs : ControllerState) : Bool :=
  match cs._blameAnnotationState with
  | some st => st.enabled
  | none => cs.cfgCurrentLineEnabled

/-- resumeBlameAnnotations(reason, editor, options): returns the new
    controller state and whether refresh(editor) was invoked.
    Source: an early return when not forced and not currently suspended;
    then resume on the stored state when defined; then a second early
    return when the editor is undefined or (not forced and no refresh). -/
def resumeBlameAnnotations (cs : ControllerState) (reason : SuspendReason)
    (editorDefined : Bool) (force : Bool) : ControllerState × Bool :=
  let suspendedNow := match cs._blameAnnotationState with
    | some st => st.suspended
    | none => false
  if !force && !suspendedNow then (cs, false)
  else
    let pair := match cs._blameAnnotationState with
      | some st => (some (st.resume reason).1, (st.resume reason).2)
      | none => ((none : Option AnnotationState), false)
    let cs' := { cs with _blameAnnotationState := pair.1 }
    if !editorDefined || (!force && !pair.2) then (cs', false)
    else (cs', true)

/-- suspendBlameAnnotations(reason, editor, options): returns the new
    controller state and whether refresh(editor) was invoked.
    Source: return when the field is undefined and the config-derived state
    is not enabled; create the field from that enabled value when missing;
    suspend; refresh unless the editor is undefined or (not forced and no
    refresh required). -/
def suspendBlameAnnotations (cs : ControllerState) (reason : SuspendReason)
    (editorDefined : Bool) (force : Bool) : ControllerState × Bool :=
  if cs._blameAnnotationState = none && !cs.blameStateEnabled then (cs, false)
  else
    let st0 := match cs._blameAnnotationState with
      | some st => st
      | none => { _enabled := cs.blameStateEnabled, _suspendReason := none }
    let pair := st0.suspend reason
    let cs' := { cs with _blameAnnotationState := some pair.1 }
    if !editorDefined || (!force && !pair.2) then (cs', false)
    else (cs', true)

/-- onDirtyStateChanged(e): a dirty document suspends for 'dirty'; a clean
    one resumes for 'dirty' with force: true. The handler reads no line
    count and no size threshold. -/
def onDirtyStateChanged (cs : ControllerState) (dirty : Bool)
    (editorDefined : Bool) : ControllerState × Bool :=
  if dirty then suspendBlameAnnotations cs .dirty editorDefined false
  else resumeBlameAnnotations cs .dirty editorDefined true

/-- onDirtyIdleTriggered(e): returns without resuming when the configured
    advanced.blame.sizeThresholdAfterEdit is positive and the document's
    line count exceeds it; otherwise resumes for 'dirty' without force. -/
def onDirtyIdleTriggered (cs : ControllerState) (maxLines lineCount : Int)
    (editorDefined : Bool) : ControllerState × Bool :=
  if maxLines > 0 && lineCount > maxLines then (cs, false)
  else resumeBlameAnnotations cs .dirty editorDefined false

/-- The inputs updateBlame consults: the line-tracker staleness test and
    debounce-pending test at entry, the blame fetch outcome (none models an
    undefined blame result; otherwise the first blame line's number and the
    rest), the same two staleness tests re-run after the await, and the
    flags read on the application path. statusBarEnabled covers
    statusBar.enabled together with the status bar item existing. -/
structure UpdateBlameEnv where
  includesAllPre : Bool
  pendingPre : Bool
  fetchResult : Option (Nat × List Nat)
  includesAllPost : Bool
  pendingPost : Bool
  isBlameable : Bool
  annotationsEnabled : Bool
  statusBarEnabled : Bool
  docDefined : Bool
  docIsDirty : Bool
  trackedDocFound : Bool
  isTextEditorFlag : Bool
deriving DecidableEq, Repr

/-- The display effects one updateBlame call performs. -/
structure BlameEffects where
  clearedAll : Bool
  clearedAnnotationsOnly : Bool
  lineStateWritten : Option Nat
  statusBarShown : Bool
  trailingDecorationsSet : Bool
  forceDirtyReArmed : Bool
deriving DecidableEq, Repr

/-- No display effect at all (an early return before the fetch). -/
def noBlameEffects : BlameEffects :=
  { clearedAll := false, clearedAnnotationsOnly := false,
    lineStateWritten := none, statusBarShown := false,
    trailingDecorationsSet := false, forceDirtyReArmed := false }

/-- updateBlame(lines, editor, trackedDocument) as its display effects.
    Faithful to the source's control flow: the entry staleness check
    returns early; an undefined fetch result clears; the post-await
    staleness condition guards only the block that clears when annotations
    are not enabled — after that block, control falls through
    unconditionally to the line-state write, the editor.document-undefined
    return, the force-dirty re-arm, the status-bar update (guarded by its
    own enablement test) and the trailing decorations (which clear instead
    when annotations are not enabled or the editor is not a text editor). -/
def updateBlame (env : UpdateBlameEnv) : BlameEffects :=
  if !env.includesAllPre || env.pendingPre then noBlameEffects
  else
    match env.fetchResult with
    | none => { noBlameEffects with clearedAll := true }
    | some (firstLine, _rest) =>
      let staleGuard := env.includesAllPost && env.isBlameable && !env.pendingPost
      if staleGuard && !env.annotationsEnabled && !env.statusBarEnabled then
        { noBlameEffects with clearedAll := true }
      else
        let clearedAnn := staleGuard && !env.annotationsEnabled
        if !env.docDefined then
          { noBlameEffects with
            clearedAnnotationsOnly := clearedAnn,
            lineStateWritten := some firstLine }
        else
          { clearedAll := false,
            clearedAnnotationsOnly :=
              clearedAnn || !(env.annotationsEnabled && env.isTextEditorFlag),
            lineStateWritten := some firstLine,
            statusBarShown := env.statusBarEnabled && env.isTextEditorFlag,
            trailingDecorationsSet :=
              env.annotationsEnabled && env.isTextEditorFlag,
            forceDirtyReArmed := env.docIsDirty && env.trackedDocFound }

/-- The per-document record fields onTextDocumentChanged reads and writes:
    the dirty flag and forceDirtyStateChangeOnNextDocumentChange. -/
structure TrackedDocRec where
  dirty : Bool
  forceDirtyStateChange : Bool
deriving DecidableEq, Repr

/-- onTextDocumentChanged(e) at the level of one tracked record: returns
    the updated record and whether fireDocumentDirtyStateChanged was
    called. schemeIsFile is the uri-scheme test, newDirty is
    e.document.isDirty, activeMatches is whether the active editor exists
    and shows the changed document. The idle-tracker feed step is a
    separate concern modelled in the DTState machine below. -/
def onTextDocumentChanged (schemeIsFile : Bool) (doc : TrackedDocRec)
    (newDirty : Bool) (activeMatches : Bool) : TrackedDocRec × Bool :=
  if !schemeIsFile then (doc, false)
  else if !doc.forceDirtyStateChange && doc.dirty == newDirty then (doc, false)
  else
    let doc' : TrackedDocRec := { dirty := newDirty, forceDirtyStateChange := false }
    if !activeMatches then (doc', false)
    else (doc', true)

/-- The DocumentTracker debounce machinery. dirtyIdleTriggerDelay is the
    configured advanced.blame.delayAfterEdit; idleDebounced is the
    _dirtyIdleTriggeredDebounced function (some b: it exists, b iff its
    timer is armed); idleOrphans counts armed timers of idle debounced
    functions dropped by a configuration change; cleanDebounced likewise
    models _dirtyStateChangedDebounced; pendingImmediates counts
    setImmediate callbacks scheduled by the dirty branch and not yet run;
    notifications lists the dirty-state notifications emitted so far (the
    dirty flag of each); idleFires counts idle-trigger notifications. -/
structure DTState where
  dirtyIdleTriggerDelay : Int
  idleDebounced : Option Bool
  idleOrphans : Nat
  cleanDebounced : Option Bool
  pendingImmediates : Nat
  notifications : List Bool
  idleFires : Nat
deriving DecidableEq, Repr

/-- One event observed by the DocumentTracker debounce machinery. -/
inductive DTEv
  /-- fireDocumentDirtyStateChanged with e.dirty = true: schedules a
      setImmediate callback; when the delay is positive, creates the idle
      debounced function if needed and feeds it (arming its timer). -/
  | fireDirty
  /-- fireDocumentDirtyStateChanged with e.dirty = false: creates the
      clean-side 250ms debounced function if needed and feeds it. -/
  | fireClean
  /-- The event loop runs one scheduled setImmediate callback, which
      cancels the clean-side debounce and then emits the dirty
      notification when the active editor still matches. -/
  | runImmediate (activeMatches : Bool)
  /-- The clean-side 250ms debounce timer elapses; the callback emits the
      clean notification when the active editor still matches. -/
  | elapseClean (activeMatches : Bool)
  /-- The current idle debounce timer elapses: its callback sees itself
      no longer pending and fires the idle trigger. -/
  | elapseIdle
  /-- An orphaned idle debounce timer elapses: its callback re-reads the
      field, returning only when the field holds a pending function. -/
  | elapseIdleOrphan
  /-- onConfigurationChanged with advanced.blame.delayAfterEdit changed:
      stores the new delay and drops the idle debounced function without
      cancelling its timer. -/
  | configDelay (d : Int)
  /-- onTextDocumentChanged's idle-tracker step: when the idle debounced
      function exists, feed it if the document is dirty, else cancel it. -/
  | feedIdle (dirty : Bool)
deriving DecidableEq, Repr

/-- One step of the DocumentTracker debounce machinery. -/
def DTState.step (s : DTState) : DTEv → DTState
  | .fireDirty =>
    let s1 := { s with pendingImmediates := s.pendingImmediates + 1 }
    if s1.dirtyIdleTriggerDelay > 0 then { s1 with idleDebounced := some true }
    else s1
  | .fireClean => { s with cleanDebounced := some true }
  | .runImmediate activeMatches =>
    if s.pendingImmediates = 0 then s
    else
      let s1 := { s with
        pendingImmediates := s.pendingImmediates - 1,
        cleanDebounced := s.cleanDebounced.map fun _ => false }
      if activeMatches then { s1 with notifications := s1.notifications ++ [true] }
      else s1
  | .elapseClean activeMatches =>
    if s.cleanDebounced = some true then
      let s1 := { s with cleanDebounced := some false }
      if activeMatches then { s1 with notifications := s1.notifications ++ [false] }
      else s1
    else s
  | .elapseIdle =>
    if s.idleDebounced = some true then
      { s with idleDebounced := some false, idleFires := s.idleFires + 1 }
    else s
  | .elapseIdleOrphan =>
    if s.idleOrphans = 0 then s
    else
      let s1 := { s with idleOrphans := s.idleOrphans - 1 }
      if s.idleDebounced = some true then s1
      else { s1 with idleFires := s1.idleFires + 1 }
  | .configDelay d =>
    { s with
      dirtyIdleTriggerDelay := d,
      idleDebounced := none,
      idleOrphans := s.idleOrphans + (if s.idleDebounced = some true then 1 else 0) }
  | .feedIdle dirty =>
    match s.idleDebounced with
    | some _ => { s with idleDebounced := some dirty }
    | none => s

/-- Run a whole event sequence left to right. -/
def DTState.run (s : DTState) (evs : List DTEv) : DTState :=
  evs.foldl DTState.step s

/-- The TextDocument fields the tracker model needs. -/
structure TextDoc where
  uriKey : String
  isDirty : Bool
  lineCount : Nat
deriving DecidableEq, Repr

/-- class MissingRevisionTextDocument: the read-only placeholder the
    tracker substitutes for a versioned uri whose document no longer
    exists. Its constructor fixes every field. -/
structure MissingRevisionTextDocument where
  uriKey : String
  eolIsLF : Bool
  isClosed : Bool
  isDirty : Bool
  isUntitled : Bool
  languageId : String
  lineCount : Nat
  version : Nat
deriving DecidableEq, Repr

/-- The MissingRevisionTextDocument constructor's field values. -/
def mkMissingRevisionTextDocument (uriKey : String) :
    MissingRevisionTextDocument :=
  { uriKey := uriKey, eolIsLF := true, isClosed := false, isDirty := false,
    isUntitled := false, languageId := "", lineCount := 0, version := 0 }

/-- Every content method of the placeholder (getText, lineAt, offsetAt, ...)
    throws 'Method not supported': it never yields text. -/
def MissingRevisionTextDocument.getText
    (_d : MissingRevisionTextDocument) : Option String :=
  none

/-- The document handle a tracked record wraps. -/
inductive ResolvedDoc
  | openedDoc (d : TextDoc)
  | missingRevision (d : MissingRevisionTextDocument)
deriving DecidableEq, Repr

/-- The record _add produces: addCore registers the record under both map
    keys with dirty started out false; ensureInitialized then completes
    initialization. -/
structure TrackedRecord where
  doc : ResolvedDoc
  key : String
  dirty : Bool
  registered : Bool
  initialized : Bool
deriving DecidableEq, Repr

/-- addCore(document): create the record (dirty always starts false) and
    register it in the document map. -/
def addCore (d : ResolvedDoc) (key : String) : TrackedRecord :=
  { doc := d, key := key, dirty := false, registered := true,
    initialized := false }

/-- ensureInitialized(): completes the record's initialization. -/
def ensureInitialized (r : TrackedRecord) : TrackedRecord :=
  { r with initialized := true }

/-- ex.toString().includes('File not found'). -/
def messageIndicatesFileNotFound (msg : String) : Bool :=
  decide (List.IsInfix "File not found".data msg.data)

/-- DocumentTracker._add for a versioned GitUri argument. The outcome of
    the attempted workspace.openTextDocument is passed in: a failure whose
    message indicates 'File not found' is recovered by substituting the
    missing-revision placeholder, any other failure is rethrown; addCore
    and ensureInitialized then run on the resolved document and the record
    is returned. -/
def documentTrackerAddGitUri (uriKey : String)
    (openResult : Except String TextDoc) : Except String TrackedRecord :=
  match openResult with
  | .ok d => .ok (ensureInitialized (addCore (.openedDoc d) uriKey))
  | .error msg =>
    if messageIndicatesFileNotFound msg then
      .ok (ensureInitialized
        (addCore (.missingRevision (mkMissingRevisionTextDocument uriKey))
          uriKey))
    else .error msg

/-- ResultsExplorer.clearResults(): a no-op on an empty root list;
    otherwise every root is disposed and the roots are rebuilt from the
    saved results. Returns the new root list and the disposed nodes. -/
def clearResults {α : Type} (saved roots : List α) : List α × List α :=
  if roots.length = 0 then (roots, [])
  else (saved, roots)

/-- ResultsExplorer.addResults(results): returns false when the node is
    already a root; otherwise clears first when roots exist and the
    keepResults workspace flag is off, then splices the node in at index 0
    and returns true. Result: (new roots, disposed nodes, returned Bool). -/
def addResults {α : Type} [DecidableEq α] (keepResults : Bool)
    (saved roots : List α) (node : α) : List α × List α × Bool :=
  if node ∈ roots then (roots, [], false)
  else
    let cleared :=
      if 0 < roots.length ∧ keepResults = false then clearResults saved roots
      else (roots, [])
    (node :: cleared.1, cleared.2, true)

/-- Claim C1 counterexample: from an enabled, unsuspended AnnotationState,
    the sequence suspend('debugging'); suspend('dirty'); resume('debugging')
    leaves the state unsuspended with the enabled getter true — resume
    clears the suspension although only the overwritten reason was
    resumed, so the state does not stay suspended and enabled does not
    stay false. -/
theorem claim_C1_counterexample :
    ((((⟨true, none⟩ : AnnotationState).suspend .debugging).1.suspend
        .dirty).1.resume .debugging).1.suspended = false ∧
    ((((⟨true, none⟩ : AnnotationState).suspend .debugging).1.suspend
        .dirty).1.resume .debugging).1.enabled = true := by
  decide

/-- Claim C1 amended: resume ignores its reason argument; after
    suspend(r1); suspend(r2); resume(r3) — in particular after
    suspend('debugging'); suspend('dirty'); resume('debugging') — every
    AnnotationState is left unsuspended, and its enabled getter returns
    the underlying enabled flag again. -/
theorem claim_C1_amended (s : AnnotationState) (r1 r2 r3 : SuspendReason) :
    (((s.suspend r1).1.suspend r2).1.resume r3).1.suspended = false ∧
    (((s.suspend r1).1.suspend r2).1.resume r3).1.enabled = s._enabled := by
  revert s r1 r2 r3
  decide

/-- Claim C2: after any sequence of reset/suspend/resume calls from any
    AnnotationState, whenever a suspend reason is set the enabled getter
    returns false, regardless of the underlying enabled flag. -/
theorem claim_C2_suspension_overrides (s : AnnotationState)
    (ops : List AnnOp) (h : (s.applyOps ops).suspended = true) :
    (s.applyOps ops).enabled = false := by
  simp [ AnnotationState.enabled, h]

/-- Claim C2 witness: the invariant at a concrete state and sequence. -/
theorem claim_C2_witness :
    ((⟨true, none⟩ : AnnotationState).applyOps
        [AnnOp.suspend .debugging, AnnOp.suspend .dirty]).suspended = true ∧
    ((⟨true, none⟩ : AnnotationState).applyOps
        [AnnOp.suspend .debugging, AnnOp.suspend .dirty]).enabled = false :=
  ⟨by decide, claim_C2_suspension_overrides _ _ (by decide)⟩

/-- Claim C3: reset(true); suspend('dirty'); resume('dirty') always
    leaves the enabled getter true; and from any unsuspended state,
    suspend(r) followed by the matching resume(r) with no intervening
    reset restores the enabled getter to its pre-suspension value. -/
theorem claim_C3_suspend_resume_roundtrip :
    (∀ s : AnnotationState,
      ((((s.reset true).1.suspend .dirty).1.resume .dirty).1).enabled =
        true) ∧
    (∀ s : AnnotationState, ∀ r : SuspendReason, s.suspended = false →
      (((s.suspend r).1.resume r).1).enabled = s.enabled) := by
  decide

/-- Claim C3 witness: the round trip at concrete states. -/
theorem claim_C3_witness :
    ((((((⟨false, none⟩ : AnnotationState).reset true).1.suspend
        .dirty).1.resume .dirty).1).enabled = true) ∧
    ((⟨true, none⟩ : AnnotationState).suspended = false ∧
      ((((⟨true, none⟩ : AnnotationState).suspend .dirty).1.resume
          .dirty).1.enabled = (⟨true, none⟩ : AnnotationState).enabled)) :=
  ⟨claim_C3_suspend_resume_roundtrip.1 _,
    by decide, claim_C3_suspend_resume_roundtrip.2 _ _ (by decide)⟩

/-- Claim C5, evidence of the code divergence: a blame fetch started for
    active line 5 resolves after the active line set no longer includes 5
    (includesAllPost = false, no newer debounce pending); updateBlame
    nevertheless writes the line state for line 5, shows the status bar
    text and sets the trailing decoration — the stale result is applied
    to the display, because the post-await staleness condition only
    guards the not-enabled clearing block and control then falls through
    to the application code. -/
theorem claim_C5_stale_result_applied :
    updateBlame
      { includesAllPre := true, pendingPre := false,
        fetchResult := some (5, []), includesAllPost := false,
        pendingPost := false, isBlameable := true,
        annotationsEnabled := true, statusBarEnabled := true,
        docDefined := true, docIsDirty := false, trackedDocFound := true,
        isTextEditorFlag := true } =
      { clearedAll := false, clearedAnnotationsOnly := false,
        lineStateWritten := some 5, statusBarShown := true,
        trailingDecorationsSet := true, forceDirtyReArmed := false } := by
  decide

/-- Claim C6 counterexample: annotations are suspended for 'dirty'
    (underlying flag true) and the active document — 10000 lines against
    a configured threshold of 100 — transitions dirty → clean. The clean
    branch of onDirtyStateChanged resumes unconditionally (it never reads
    a line count or a threshold): the suspension is cleared and a refresh
    is invoked, so resumption is not skipped. -/
theorem claim_C6_counterexample :
    onDirtyStateChanged
      { _blameAnnotationState := some ⟨true, some .dirty⟩,
        cfgCurrentLineEnabled := true } false true =
      ({ _blameAnnotationState := some ⟨true, none⟩,
         cfgCurrentLineEnabled := true }, true) := by
  decide

/-- Claim C6 amended: a dirty → clean transition resumes unconditionally
    (forced), clearing any stored suspension regardless of line count;
    the size-threshold skip instead belongs to the dirty-idle trigger
    handler, which does nothing when the configured threshold is positive
    and the document's line count exceeds it. -/
theorem claim_C6_amended :
    (∀ cs : ControllerState, ∀ ed : Bool, ∀ st : AnnotationState,
      cs._blameAnnotationState = some st →
      ((onDirtyStateChanged cs false ed).1)._blameAnnotationState =
        some (st.resume .dirty).1) ∧
    (∀ cs : ControllerState, ∀ maxLines lineCount : Int, ∀ ed : Bool,
      0 < maxLines → maxLines < lineCount →
      onDirtyIdleTriggered cs maxLines lineCount ed = (cs, false)) := by
  constructor
  · intro cs ed st h
    cases ed <;> simp [onDirtyStateChanged, resumeBlameAnnotations, h]
  · intro cs maxLines lineCount ed h1 h2
    simp [onDirtyIdleTriggered, h1, h2]

/-- Claim C6 witness: both amended behaviors at concrete inputs. -/
theorem claim_C6_witness :
    (({ _blameAnnotationState := some ⟨true, some .dirty⟩,
        cfgCurrentLineEnabled := true } :
          ControllerState)._blameAnnotationState =
        some ⟨true, some .dirty⟩ ∧
      ((onDirtyStateChanged
          { _blameAnnotationState := some ⟨true, some .dirty⟩,
            cfgCurrentLineEnabled := true }
          false true).1)._blameAnnotationState =
        some ((⟨true, some .dirty⟩ : AnnotationState).resume .dirty).1) ∧
    ((0 : Int) < 100 ∧ (100 : Int) < 10000 ∧
      onDirtyIdleTriggered
        { _blameAnnotationState := none, cfgCurrentLineEnabled := true }
        100 10000 true =
        ({ _blameAnnotationState := none, cfgCurrentLineEnabled := true },
          false)) :=
  ⟨⟨rfl, claim_C6_amended.1 _ _ _ rfl⟩,
    ⟨by decide, by decide,
      claim_C6_amended.2 _ 100 10000 _ (by decide) (by decide)⟩⟩

/-- Claim C7: whenever onTextDocumentChanged calls
    fireDocumentDirtyStateChanged, the record's dirty flag actually
    flipped or its force flag was set, and the changed document belongs
    to the currently active editor; in every other case no dirty-state
    notification results from the change. -/
theorem claim_C7_fire_only_on_flip_and_active (schemeIsFile : Bool)
    (doc : TrackedDocRec) (newDirty activeMatches : Bool)
    (h : (onTextDocumentChanged schemeIsFile doc newDirty
      activeMatches).2 = true) :
    (doc.forceDirtyStateChange = true ∨ doc.dirty ≠ newDirty) ∧
      activeMatches = true := by
  rcases doc with ⟨d, f⟩
  revert h
  cases schemeIsFile <;> cases d <;> cases f <;> cases newDirty <;>
    cases activeMatches <;> decide

/-- Claim C7 witness: a clean record flipping to dirty in the active
    editor does call the fire function, and the conclusion holds there. -/
theorem claim_C7_witness :
    (onTextDocumentChanged true ⟨false, false⟩ true true).2 = true ∧
      (((⟨false, false⟩ : TrackedDocRec).forceDirtyStateChange = true ∨
        (⟨false, false⟩ : TrackedDocRec).dirty ≠ true) ∧ true = true) :=
  ⟨by decide, claim_C7_fire_only_on_flip_and_active true ⟨false, false⟩
      true true (by decide)⟩

/-- While the dirty-idle delay configuration is nonpositive and the idle
    debounce machinery is absent, one step keeps it that way and fires no
    idle trigger: the idle debounced function is only ever created under
    a positive delay. -/
theorem dtIdleInvStep (s : DTState) (ev : DTEv)
    (h1 : s.dirtyIdleTriggerDelay ≤ 0) (h2 : s.idleDebounced = none)
    (h3 : s.idleOrphans = 0) (h4 : s.idleFires = 0)
    (hev : ∀ d : Int, ev = DTEv.configDelay d → d ≤ 0) :
    (s.step ev).dirtyIdleTriggerDelay ≤ 0 ∧
      (s.step ev).idleDebounced = none ∧
      (s.step ev).idleOrphans = 0 ∧ (s.step ev).idleFires = 0 := by
  cases ev with
  | fireDirty =>
    have hng : ¬ s.dirtyIdleTriggerDelay > 0 := by omega
    simp [DTState.step, hng, h1, h2, h3, h4]
  | fireClean => simp [DTState.step, h1, h2, h3, h4]
  | runImmediate b =>
    by_cases hp : s.pendingImmediates = 0
    · simp [DTState.step, hp, h1, h2, h3, h4]
    · cases b <;> simp [DTState.step, hp, h1, h2, h3, h4]
  | elapseClean b =>
    by_cases hc : s.cleanDebounced = some true
    · cases b <;> simp [DTState.step, hc, h1, h2, h3, h4]
    · simp [DTState.step, hc, h1, h2, h3, h4]
  | elapseIdle => simp [DTState.step, h1, h2, h3, h4]
  | elapseIdleOrphan => simp [DTState.step, h1, h2, h3, h4]
  | configDelay d => simp [DTState.step, h1, h2, h3, h4, hev d rfl]
  | feedIdle dirty => simp [DTState.step, h1, h2, h3, h4]

/-- Claim C4: for every event sequence on the DocumentTracker — any edit
    pattern, configuration changes included — if the configured
    dirty-idle delay starts nonpositive, every configuration change keeps
    it nonpositive, and the idle machinery starts absent, then no
    onDidTriggerDirtyIdle notification ever fires. -/
theorem claim_C4_no_idle_trigger_when_delay_nonpositive (s0 : DTState)
    (evs : List DTEv) (hdelay : s0.dirtyIdleTriggerDelay ≤ 0)
    (hdeb : s0.idleDebounced = none) (horph : s0.idleOrphans = 0)
    (hfires : s0.idleFires = 0)
    (hcfg : ∀ d : Int, DTEv.configDelay d ∈ evs → d ≤ 0) :
    (s0.run evs).idleFires = 0 := by
  induction evs generalizing s0 with
  | nil => simpa [DTState.run] using hfires
  | cons ev rest ih =>
    have hstep := dtIdleInvStep s0 ev hdelay hdeb horph hfires
      (fun d hd => hcfg d (by simp [hd]))
    have hrest := ih (s0.step ev) hstep.1 hstep.2.1 hstep.2.2.1
      hstep.2.2.2 (fun d hd => hcfg d (List.mem_cons_of_mem _ hd))
    simpa [DTState.run] using hrest

/-- Claim C4 witness: a trace with edits, immediates, elapses and a
    configuration change to another nonpositive delay fires no idle
    trigger. -/
theorem claim_C4_witness :
    ((⟨0, none, 0, none, 0, [], 0⟩ : DTState).dirtyIdleTriggerDelay ≤ 0 ∧
      (⟨0, none, 0, none, 0, [], 0⟩ : DTState).idleDebounced = none) ∧
    (DTState.run ⟨0, none, 0, none, 0, [], 0⟩
      [DTEv.fireDirty, DTEv.feedIdle true, DTEv.runImmediate true,
        DTEv.configDelay (-3), DTEv.fireClean, DTEv.elapseIdle,
        DTEv.elapseIdleOrphan, DTEv.elapseClean true]).idleFires = 0 :=
  ⟨⟨by decide, rfl⟩,
    claim_C4_no_idle_trigger_when_delay_nonpositive _ _ (by decide) rfl
      rfl rfl (by intro d hd; simp at hd; omega)⟩

/-- Claim C8: when opening a versioned GitUri fails, a failure message
    indicating 'File not found' makes _add substitute the read-only
    missing-revision placeholder and still create, register, initialize
    and return a tracked record; any other resolution failure is
    propagated to the caller. -/
theorem claim_C8_add_missing_revision (uriKey msg : String) :
    (messageIndicatesFileNotFound msg = true →
      documentTrackerAddGitUri uriKey (Except.error msg) =
        Except.ok
          { doc := ResolvedDoc.missingRevision
              (mkMissingRevisionTextDocument uriKey),
            key := uriKey, dirty := false, registered := true,
            initialized := true } ∧
      (mkMissingRevisionTextDocument uriKey).isDirty = false ∧
      (mkMissingRevisionTextDocument uriKey).getText = none) ∧
    (messageIndicatesFileNotFound msg = false →
      documentTrackerAddGitUri uriKey (Except.error msg) =
        Except.error msg) := by
  constructor
  · intro h
    refine ⟨?_, rfl, rfl⟩
    simp [documentTrackerAddGitUri, h, ensureInitialized, addCore]
  · intro h
    simp [documentTrackerAddGitUri, h]

/-- Claim C8 witness: a not-found message is recovered with the
    placeholder record; a different message is propagated. -/
theorem claim_C8_witness :
    (messageIndicatesFileNotFound "File not found" = true ∧
      documentTrackerAddGitUri "k" (Except.error "File not found") =
        Except.ok
          { doc := ResolvedDoc.missingRevision
              (mkMissingRevisionTextDocument "k"),
            key := "k", dirty := false, registered := true,
            initialized := true }) ∧
    (messageIndicatesFileNotFound "denied" = false ∧
      documentTrackerAddGitUri "k" (Except.error "denied") =
        Except.error "denied") :=
  ⟨⟨by decide,
      ((claim_C8_add_missing_revision "k" "File not found").1
        (by decide)).1⟩,
    ⟨by decide,
      (claim_C8_add_missing_revision "k" "denied").2 (by decide)⟩⟩

/-- Claim C9 counterexample: the active document goes dirty → clean →
    dirty faster than the 250ms quiet period (turn-spaced calls into
    fireDocumentDirtyStateChanged). The single net transition crossing —
    initially clean, finally dirty — would allow exactly one
    notification, but the machinery delivers two dirty notifications:
    each transition to dirty is delivered on the next scheduler turn, and
    nothing coalesces the duplicate left after the clean notification is
    suppressed. -/
theorem claim_C9_counterexample :
    (DTState.run ⟨0, none, 0, none, 0, [], 0⟩
      [DTEv.fireDirty, DTEv.runImmediate true, DTEv.fireClean,
        DTEv.fireDirty, DTEv.runImmediate true,
        DTEv.elapseClean true]).notifications = [true, true] ∧
    ((DTState.run ⟨0, none, 0, none, 0, [], 0⟩
      [DTEv.fireDirty, DTEv.runImmediate true, DTEv.fireClean,
        DTEv.fireDirty, DTEv.runImmediate true,
        DTEv.elapseClean true]).notifications).length ≠ 1 := by
  decide

/-- Claim C9 amended: dirty-state notifications are debounced
    asymmetrically — a clean transition only arms the fixed 250ms
    debounce, emitting nothing at the call itself, while a dirty
    transition is delivered by the next scheduler turn's immediate
    callback, which also cancels the armed clean-side debounce.
    Consequently a dirty → clean → dirty sequence faster than the quiet
    period delivers one dirty notification per transition to dirty (two
    in total) and suppresses the clean one; the duplicate dirty
    notifications are not coalesced to one per net crossing. -/
theorem claim_C9_amended :
    (∀ s : DTState,
      (s.step DTEv.fireClean).notifications = s.notifications ∧
      (s.step DTEv.fireClean).cleanDebounced = some true) ∧
    (∀ s : DTState, s.pendingImmediates ≠ 0 →
      s.cleanDebounced = some true →
      (s.step (DTEv.runImmediate true)).cleanDebounced = some false ∧
        (s.step (DTEv.runImmediate true)).notifications =
          s.notifications ++ [true]) ∧
    (DTState.run ⟨300, none, 0, none, 0, [], 0⟩
      [DTEv.fireDirty, DTEv.runImmediate true, DTEv.fireClean,
        DTEv.fireDirty, DTEv.runImmediate true,
        DTEv.elapseClean true]).notifications = [true, true] := by
  refine ⟨fun s => ⟨rfl, rfl⟩, fun s hp hc => ?_, by decide⟩
  simp [DTState.step, hp, hc]

/-- Claim C9 witness: the immediate callback at a concrete state with an
    armed clean-side debounce cancels it and appends the dirty
    notification. -/
theorem claim_C9_witness :
    ((⟨0, none, 0, some true, 1, [true], 0⟩ :
        DTState).pendingImmediates ≠ 0 ∧
      (⟨0, none, 0, some true, 1, [true], 0⟩ : DTState).cleanDebounced =
        some true) ∧
    (((⟨0, none, 0, some true, 1, [true], 0⟩ : DTState).step
        (DTEv.runImmediate true)).cleanDebounced = some false ∧
      ((⟨0, none, 0, some true, 1, [true], 0⟩ : DTState).step
        (DTEv.runImmediate true)).notifications = [true] ++ [true]) :=
  ⟨⟨by decide, rfl⟩, claim_C9_amended.2.1 _ (by decide) rfl⟩

/-- Claim C10: addResults returns false and leaves the roots unchanged
    when the node is already a root; otherwise, with a non-empty root
    list and the keepResults workspace flag off, the existing roots are
    disposed and replaced by the saved results before the node is
    inserted at index 0, and true is returned. -/
theorem claim_C10_addResults {α : Type} [DecidableEq α] (keep : Bool)
    (saved roots : List α) (node : α) :
    (node ∈ roots → addResults keep saved roots node =
      (roots, [], false)) ∧
    (node ∉ roots → roots ≠ [] → keep = false →
      addResults keep saved roots node = (node :: saved, roots, true)) := by
  constructor
  · intro h
    simp [addResults, h]
  · intro h1 h2 h3
    have hlen : 0 < roots.length := List.length_pos.mpr h2
    have hlen' : roots.length ≠ 0 := by omega
    simp [addResults, h1, h3, clearResults, hlen, hlen']

/-- Claim C10 witness: both branches at concrete lists of node ids. -/
theorem claim_C10_witness :
    ((1 : ℕ) ∈ [1, 2] ∧
      addResults false [9] [1, 2] 1 = ([1, 2], [], false)) ∧
    ((3 : ℕ) ∉ [1, 2] ∧ ([1, 2] : List ℕ) ≠ [] ∧
      addResults false [9] [1, 2] 3 = (3 :: [9], [1, 2], true)) :=
  ⟨⟨by decide, (claim_C10_addResults false [9] [1, 2] 1).1 (by decide)⟩,
    ⟨by decide, by decide,
      (claim_C10_addResults false [9] [1, 2] 3).2 (by decide)
        (by decide) rfl⟩⟩
